import Mathlib

/-!
Shallow embedding of the sprint-planning engines of
`src/ml-service/three_engine_architecture.py`.

Modelling conventions:
* Python floats are modelled as rationals (`ℚ`); all arithmetic in the
  source on the inputs of interest is exact, so no rounding is modelled.
* Python dicts keyed by ticket id (`BacklogEngine.tickets`) are modelled as
  insertion-ordered association lists, matching CPython dict iteration
  order; `dict.get` is `List.lookup`.
* The free-form request dicts consumed by `RecommendationEngine`
  (`new_ticket`, sprint items) are modelled as a structure `TicketDict`
  with one `Option` field per key the source reads; `d.get(k, v)` is
  `(field).getD v` and `d.get(k)` is the `Option` itself.
* `sorted(..., key=..., reverse=True)` (a stable sort) is modelled by
  `List.insertionSort` with a non-strict total relation, which is stable
  in the same sense.
-/

namespace ThreeEngine

/-- One node of the backlog graph (`TicketNode` dataclass, lines 18-33).
The three weights default to 0.5 / 0.3 / 0.2 as in the dataclass. -/
structure TicketNode where
  id : String
  title : String
  business_value : ℚ
  urgency : ℚ
  risk_penalty : ℚ
  story_points : ℚ
  dependencies : List String
  status : String
  w1_business_value : ℚ := 1/2
  w2_urgency : ℚ := 3/10
  w3_risk_penalty : ℚ := 1/5
deriving DecidableEq

/-- The weighted base score of lines 41-45:
`w1 * business_value + w2 * urgency - w3 * risk_penalty`. -/
def TicketNode.base_score (t : TicketNode) : ℚ :=
  t.w1_business_value * t.business_value +
  t.w2_urgency * t.urgency -
  t.w3_risk_penalty * t.risk_penalty

/-- The dependency-penalty loop of lines 48-52: 30 points for every
dependency id that is present in the graph with status ≠ "done";
an id absent from the graph contributes nothing. -/
def TicketNode.dependency_penalty (t : TicketNode)
    (dependency_graph : List (String × TicketNode)) : ℚ :=
  t.dependencies.foldl
    (fun acc dep_id =>
      match dependency_graph.lookup dep_id with
      | some dep_ticket => if dep_ticket.status ≠ "done" then acc + 30 else acc
      | none => acc)
    0

/-- `TicketNode.calculate_selection_score` (lines 35-55):
`max 0 (base_score - dependency_penalty)`. -/
def TicketNode.calculate_selection_score (t : TicketNode)
    (dependency_graph : List (String × TicketNode)) : ℚ :=
  max 0 (t.base_score - t.dependency_penalty dependency_graph)

/-- `BacklogEngine` (lines 58-66): the ticket dict is an insertion-ordered
association list. `similarity_threshold` is carried for fidelity; nothing
the claims touch reads it. -/
structure BacklogEngine where
  tickets : List (String × TicketNode) := []
  similarity_threshold : ℚ := 7/10

/-- Python dict assignment `self.tickets[ticket.id] = ticket`: replace in
place when the key exists, append otherwise. -/
def dictInsert (g : List (String × TicketNode)) (k : String) (v : TicketNode) :
    List (String × TicketNode) :=
  if (g.lookup k).isSome then
    g.map (fun p => if p.1 = k then (k, v) else p)
  else
    g ++ [(k, v)]

/-- `BacklogEngine.add_ticket` (lines 68-70): stores the ticket
unconditionally — no validation of story points, dependencies or cycles. -/
def BacklogEngine.add_ticket (e : BacklogEngine) (ticket : TicketNode) :
    BacklogEngine :=
  { e with tickets := dictInsert e.tickets ticket.id ticket }

/-- `BacklogEngine.calculate_all_scores` (lines 72-77), in dict iteration
(= insertion) order. -/
def BacklogEngine.calculate_all_scores (e : BacklogEngine) :
    List (String × ℚ) :=
  e.tickets.map (fun p => (p.1, p.2.calculate_selection_score e.tickets))

/-- The sort relation of line 89: `key=lambda x: x[1], reverse=True`.
Non-strict so that the stable `insertionSort` keeps ties in their
original (insertion) order, exactly as Python's stable sort does. -/
def scoreDesc (a b : String × ℚ) : Prop := b.2 ≤ a.2

instance : DecidableRel scoreDesc :=
  fun a b => inferInstanceAs (Decidable (b.2 ≤ a.2))

instance : IsTotal (String × ℚ) scoreDesc :=
  ⟨fun a b => le_total b.2 a.2⟩

instance : IsTrans (String × ℚ) scoreDesc :=
  ⟨fun _ _ _ h1 h2 => le_trans h2 h1⟩

/-- `BacklogEngine.get_sorted_backlog` (lines 79-89). The `none` arm of the
inner lookup is unreachable (the scored ids all come from the dict, where
Python indexes directly). -/
def BacklogEngine.get_sorted_backlog (e : BacklogEngine)
    (status_filter : Option String) : List (String × ℚ) :=
  let scores := e.calculate_all_scores
  let filtered := scores.filter (fun p =>
    match status_filter with
    | none => true
    | some f =>
      match e.tickets.lookup p.1 with
      | some t => t.status == f
      | none => false)
  List.insertionSort scoreDesc filtered

/-- The result dict of `PlanningEngine.plan_sprint` (lines 185-191). -/
structure PlanResult where
  selected_tickets : List String
  total_points : ℚ
  remaining_capacity : ℚ
  unmet_dependencies : List String
  selection_strategy : String

/-- The running state of the loop of lines 154-183. -/
structure PlanState where
  selected : List String
  total : ℚ
  unmet : List String

/-- The dependency check of lines 169-176: some dependency id resolves in
the graph to a ticket whose status is not "done" (an unknown id is treated
as met). -/
def hasUnmetDep (tickets : List (String × TicketNode)) (t : TicketNode) : Bool :=
  t.dependencies.any (fun dep_id =>
    match tickets.lookup dep_id with
    | some dep_ticket => dep_ticket.status != "done"
    | none => false)

/-- One iteration of the loop of lines 158-183 over a `(ticket_id, score)`
pair. The `none` lookup arm is unreachable: the ids come from
`get_sorted_backlog`, and Python indexes `backlog_engine.tickets[ticket_id]`
directly. -/
def planStep (tickets : List (String × TicketNode)) (capacity : ℚ)
    (exclude_tickets : List String) (s : PlanState) (p : String × ℚ) :
    PlanState :=
  if p.1 ∈ exclude_tickets then s
  else
    match tickets.lookup p.1 with
    | none => s
    | some ticket =>
      if s.total + ticket.story_points > capacity then s
      else if hasUnmetDep tickets ticket then
        { s with unmet := if p.1 ∈ s.unmet then s.unmet else s.unmet ++ [p.1] }
      else
        { s with selected := s.selected ++ [p.1],
                 total := s.total + ticket.story_points }

/-- `PlanningEngine.plan_sprint` (lines 127-191): greedy first-fit walk over
the backlog ranked by selection score. -/
def plan_sprint (backlog_engine : BacklogEngine) (capacity : ℚ)
    (exclude_tickets : Option (List String)) : PlanResult :=
  let exclude := exclude_tickets.getD []
  let sorted_backlog := backlog_engine.get_sorted_backlog (some "backlog")
  let final := sorted_backlog.foldl
    (planStep backlog_engine.tickets capacity exclude)
    ⟨[], 0, []⟩
  { selected_tickets := final.selected
    total_points := final.total
    remaining_capacity := capacity - final.total
    unmet_dependencies := final.unmet
    selection_strategy := "greedy_knapsack_by_selection_score" }

/-- A free-form request dict (the `new_ticket` argument and the sprint item
dicts of `RecommendationEngine`), restricted to the keys the source reads.
A `none` field is an absent key. -/
structure TicketDict where
  id : Option String := none
  title : Option String := none
  description : Option String := none
  story_points : Option ℚ := none
  priority : Option String := none
  business_value : Option ℚ := none
  urgency : Option ℚ := none
  risk_penalty : Option ℚ := none
  status : Option String := none
deriving DecidableEq

/-- The `active_sprint["metrics"]` sub-dict (read at line 265). -/
structure MetricsDict where
  committedSP : Option ℚ := none
deriving DecidableEq

/-- The `active_sprint` dict, restricted to the keys the source reads. -/
structure SprintDict where
  id : Option String := none
  metrics : Option MetricsDict := none
  status : Option String := none
deriving DecidableEq

/-- The `productivity_model` dict (read at line 331). -/
structure ProductivityModel where
  productivity_impact : Option ℚ := none
deriving DecidableEq

/-- Python's `pat in s` substring test, on character lists. -/
def listContainsSub (pat : List Char) : List Char → Bool
  | [] => pat.isEmpty
  | c :: t => pat.isPrefixOf (c :: t) || listContainsSub pat t

/-- Python's `pat in s` substring test on strings. -/
def strContains (s pat : String) : Bool :=
  listContainsSub pat.toList s.toList

/-- `RecommendationEngine._is_blocker` (lines 536-543): keyword scan over
the lowercased title and description. -/
def isBlocker (ticket : TicketDict) : Bool :=
  let description := (ticket.description.getD "").toLower
  let title := (ticket.title.getD "").toLower
  let text := title ++ " " ++ description
  ["blocker", "critical", "urgent", "production", "down", "broken", "p0"].any
    (fun keyword => strContains text keyword)

/-- The `priority_map` dict of line 395 with its `.get(_, 50)` default. -/
def priority_map (p : String) : ℚ :=
  if p = "Highest" then 90
  else if p = "High" then 70
  else if p = "Medium" then 50
  else if p = "Low" then 30
  else if p = "Lowest" then 10
  else 50

/-- `RecommendationEngine._calculate_ticket_value` (lines 385-400).
Missing `business_value` and `urgency` default to 50, missing
`risk_penalty` to 0; priority enters only through
`effective_urgency = max(urgency, 0.8 * priority_map[priority])`. -/
def calculate_ticket_value (ticket : TicketDict) : ℚ :=
  let business_value := ticket.business_value.getD 50
  let urgency := ticket.urgency.getD 50
  let risk_penalty := ticket.risk_penalty.getD 0
  let priority_urgency := priority_map (ticket.priority.getD "Medium")
  let effective_urgency := max urgency (priority_urgency * (4/5))
  max 0 ((1/2) * business_value + (3/10) * effective_urgency -
    (1/5) * risk_penalty)

/-- `RecommendationEngine._calculate_context_switching_cost`
(lines 402-442). -/
def calculate_context_switching_cost (work_item : TicketDict)
    (is_active_sprint : Bool) (in_progress_count : ℕ)
    (productivity_impact_days : ℚ) : ℚ :=
  let base_cost_hours : ℚ := 1/2
  let status := work_item.status.getD "To Do"
  let status_cost : ℚ :=
    if status = "To Do" then 0
    else if status = "In Review" then 1
    else if status = "In Progress" then 3
    else 3/2
  let wip_cost := (in_progress_count : ℚ) * (3/4)
  let item_points := work_item.story_points.getD 0
  let size_multiplier : ℚ :=
    if item_points ≥ 13 then 3/2
    else if item_points ≥ 8 then 6/5
    else 1
  let active_multiplier : ℚ := if is_active_sprint then 3/2 else 1
  (base_cost_hours + status_cost + wip_cost) * size_multiplier *
    active_multiplier + productivity_impact_days * 8

/-- `RecommendationEngine._convert_cost_to_value` (lines 444-447):
2 value points per hour. -/
def convert_cost_to_value (cost_hours : ℚ) : ℚ :=
  cost_hours * 2

/-- The per-tier sort relation of line 473: `key=lambda x:
x.get("story_points", 0)` ascending; non-strict so the stable
`insertionSort` matches Python's stable sort. -/
def spAsc (a b : TicketDict) : Prop :=
  a.story_points.getD 0 ≤ b.story_points.getD 0

instance : DecidableRel spAsc :=
  fun a b =>
    inferInstanceAs (Decidable (a.story_points.getD 0 ≤ b.story_points.getD 0))

/-- The candidate dict built by `_find_optimal_swap_candidate`
(lines 478-500). -/
structure SwapCandidate where
  item : TicketDict
  reason : String
  total_removed_points : ℚ
deriving DecidableEq

/-- The status-tier buckets of lines 460-473: items are grouped by
`item.get("status", "To Do")`, items with any other status are dropped,
and each bucket is sorted by story points ascending (stable). -/
def statusTier (sprint_items : List TicketDict) (tier : String) :
    List TicketDict :=
  List.insertionSort spAsc
    (sprint_items.filter (fun item => item.status.getD "To Do" == tier))

/-- `RecommendationEngine._find_optimal_swap_candidate` (lines 449-502):
head of the "To Do" tier, else head of the "In Review" tier, else — only
for a critical blocker — head of the "In Progress" tier, else `none`.
`points_needed` is accepted but never read, as in the source. -/
def find_optimal_swap_candidate (sprint_items : List TicketDict)
    (is_critical : Bool) (points_needed : ℚ) : Option SwapCandidate :=
  match statusTier sprint_items "To Do" with
  | candidate :: _ =>
    some { item := candidate
           reason := "To Do items have lowest context-switch cost"
           total_removed_points := candidate.story_points.getD 0 }
  | [] =>
    match statusTier sprint_items "In Review" with
    | candidate :: _ =>
      some { item := candidate
             reason := "In Review items are easier to defer than In Progress"
             total_removed_points := candidate.story_points.getD 0 }
    | [] =>
      if is_critical then
        match statusTier sprint_items "In Progress" with
        | candidate :: _ =>
          some { item := candidate
                 reason := "Only considering In Progress for critical blocker requirements"
                 total_removed_points := candidate.story_points.getD 0 }
        | [] => none
      else none

/-- The accumulation loop of `_find_multiple_swap_candidates`
(lines 521-532): walk the candidates, stopping as soon as the running
total reaches `points_needed`. -/
def collectCandidates (points_needed : ℚ) :
    List TicketDict → List TicketDict × ℚ → List TicketDict × ℚ
  | [], acc => acc
  | item :: rest, (candidates, total) =>
    if total ≥ points_needed then (candidates, total)
    else
      collectCandidates points_needed rest
        (candidates ++ [item], total + item.story_points.getD 0)

/-- `RecommendationEngine._find_multiple_swap_candidates` (lines 504-534).
The loop iterates only the "To Do" and "In Review" tiers (its
"In Progress" guard is dead code: "In Progress" is not in the iterated
list), so `is_critical` is never read, as in the source. -/
def find_multiple_swap_candidates (sprint_items : List TicketDict)
    (is_critical : Bool) (points_needed : ℚ) : Option (List TicketDict) :=
  let pool := statusTier sprint_items "To Do" ++ statusTier sprint_items "In Review"
  let result := collectCandidates points_needed pool ([], 0)
  if result.2 ≥ points_needed then some result.1 else none

/-- Round-half-even to an integer, the rounding Python's `format(x, ".1f")`
applies to the scaled value. -/
def roundHalfEven (q : ℚ) : ℤ :=
  let f := Int.floor q
  let r := q - f
  if r < 1/2 then f
  else if r > 1/2 then f + 1
  else if f % 2 = 0 then f else f + 1

/-- Python's `f"{x:.1f}"`: one-decimal fixed-point rendering (the source
only formats values that are exact multiples of 1/10, where binary
floating point and rational rounding agree). -/
def fmt1 (q : ℚ) : String :=
  let n := roundHalfEven (q * 10)
  let sign := if n < 0 then "-" else ""
  let m := n.natAbs
  sign ++ toString (m / 10) ++ "." ++ toString (m % 10)

/-- Which `reasoning` message a `SprintInterruptionResult` carries, one
constructor per `return` site of `assess_sprint_interruption`, with the
numeric payload interpolated there. The English template is elided: its
exact rendering depends on Python's `str()` of int-vs-float inputs, which
the numeric value alone does not determine. -/
inductive ReasonTag where
  | acceptFits (new_points remaining_capacity : ℚ)
  | deferNoCandidates
  | splitLargeItem (new_points remaining_capacity : ℚ)
  | deferMultipleItems
  | deferValueNet (new_value removed_value switch_cost_value value_net : ℚ)
  | criticalEscalation (value_net : ℚ)
  | swapJustified (new_value removed_value switch_cost_value value_net : ℚ)
      (candidate_reason : String)
deriving DecidableEq

/-- `SprintInterruptionResult` (lines 198-208). -/
structure SprintInterruptionResult where
  action : String
  target_to_remove : Option String
  reasoning : ReasonTag
  constraints_checked : List String
  new_item_value : Option ℚ := none
  removed_item_value : Option ℚ := none
  switch_cost : Option ℚ := none
  value_net : Option ℚ := none
deriving DecidableEq

/-- The sprint capacity read of line 265:
`active_sprint.get("metrics", {}).get("committedSP", 30.0)`. -/
def sprintCapacity (active_sprint : SprintDict) : ℚ :=
  ((active_sprint.metrics.getD {}).committedSP).getD 30

/-- The committed-points sum of line 266. -/
def currentPoints (sprint_items : List TicketDict) : ℚ :=
  (sprint_items.map (fun item => item.story_points.getD 0)).sum

/-- `remaining_capacity` of line 267. -/
def remainingCapacity (active_sprint : SprintDict)
    (sprint_items : List TicketDict) : ℚ :=
  sprintCapacity active_sprint - currentPoints sprint_items

/-- The critical-blocker flag of line 259:
`new_priority == "Highest" and self._is_blocker(new_ticket)`. -/
def isCriticalBlocker (new_ticket : TicketDict) : Bool :=
  (new_ticket.priority.getD "Medium" == "Highest") && isBlocker new_ticket

/-- The in-progress count of line 335:
`len([i for i in sprint_items if i.get("status") == "In Progress"])`
(note: no "To Do" default here, unlike the tier grouping). -/
def inProgressCount (sprint_items : List TicketDict) : ℕ :=
  (sprint_items.filter (fun i => i.status == some "In Progress")).length

/-- The productivity-impact read of line 331:
`productivity_model.get("productivity_impact", 0.0) if productivity_model
else 0.0`. -/
def productivityImpact (productivity_model : Option ProductivityModel) : ℚ :=
  match productivity_model with
  | some m => m.productivity_impact.getD 0
  | none => 0

/-- The switch-cost value computed at lines 331-340 for a given removed
item: context-switching cost in hours, converted to value units. -/
def assessSwitchCostValue (active_sprint : SprintDict)
    (sprint_items : List TicketDict)
    (productivity_model : Option ProductivityModel)
    (removed_item : TicketDict) : ℚ :=
  convert_cost_to_value
    (calculate_context_switching_cost removed_item
      (active_sprint.status == some "active")
      (inProgressCount sprint_items)
      (productivityImpact productivity_model))

/-- Lines 330-383 of `assess_sprint_interruption` (split out of the single
Python method for proof structuring): Constraint B (context-switching tax),
the critical-blocker escalation and the SWAP recommendation, reached with a
chosen swap candidate and the constraint entries accumulated so far. -/
def valueComparisonStage (new_value : ℚ) (is_critical_blocker : Bool)
    (active_sprint : SprintDict) (sprint_items : List TicketDict)
    (productivity_model : Option ProductivityModel)
    (swap_candidate : SwapCandidate) (constraints_checked : List String) :
    SprintInterruptionResult :=
  let removed_item := swap_candidate.item
  let removed_value := calculate_ticket_value removed_item
  let switch_cost_value :=
    assessSwitchCostValue active_sprint sprint_items productivity_model
      removed_item
  let value_net := new_value - (removed_value + switch_cost_value)
  let cc := constraints_checked ++
    ["Context-Switching-Tax: Net value = " ++ fmt1 value_net]
  if value_net ≤ 0 then
    { action := "DEFER"
      target_to_remove := none
      reasoning := .deferValueNet new_value removed_value switch_cost_value
        value_net
      constraints_checked := cc
      new_item_value := some new_value
      removed_item_value := some removed_value
      switch_cost := some switch_cost_value
      value_net := some value_net }
  else if is_critical_blocker then
    { action := "CRITICAL"
      target_to_remove := removed_item.id
      reasoning := .criticalEscalation value_net
      constraints_checked := cc ++ ["Critical-Path-Detection"]
      new_item_value := some new_value
      removed_item_value := some removed_value
      switch_cost := some switch_cost_value
      value_net := some value_net }
  else
    { action := "SWAP"
      target_to_remove := removed_item.id
      reasoning := .swapJustified new_value removed_value switch_cost_value
        value_net swap_candidate.reason
      constraints_checked := cc ++ ["All-Constraints-Satisfied"]
      new_item_value := some new_value
      removed_item_value := some removed_value
      switch_cost := some switch_cost_value
      value_net := some value_net }

/-- `RecommendationEngine.assess_sprint_interruption` (lines 217-383). -/
def assess_sprint_interruption (new_ticket : TicketDict)
    (active_sprint : SprintDict) (sprint_items : List TicketDict)
    (productivity_model : Option ProductivityModel) :
    SprintInterruptionResult :=
  let new_points := new_ticket.story_points.getD 0
  let is_critical_blocker := isCriticalBlocker new_ticket
  let new_value := calculate_ticket_value new_ticket
  let remaining_capacity := remainingCapacity active_sprint sprint_items
  if new_points ≤ remaining_capacity then
    { action := "ACCEPT"
      target_to_remove := none
      reasoning := .acceptFits new_points remaining_capacity
      constraints_checked := ["Zero-Sum: Fits without removal"] }
  else
    let points_deficit := new_points - remaining_capacity
    let cc1 := ["Zero-Sum: Need to remove " ++ fmt1 points_deficit ++ " SP"]
    match find_optimal_swap_candidate sprint_items is_critical_blocker
        points_deficit with
    | none =>
      { action := "DEFER"
        target_to_remove := none
        reasoning := .deferNoCandidates
        constraints_checked :=
          cc1 ++ ["WIP-Safety: No viable swap candidates"] }
    | some swap_candidate =>
      if swap_candidate.total_removed_points < points_deficit then
        if new_points > 8 then
          { action := "SPLIT"
            target_to_remove := none
            reasoning := .splitLargeItem new_points remaining_capacity
            constraints_checked :=
              cc1 ++ ["Split-Feasibility: Large item can be split"] }
        else
          -- Python tests `if multiple_candidates:` — truthiness, so both
          -- `None` and an empty list fall through to Constraint B.
          let multiple_candidates :=
            find_multiple_swap_candidates sprint_items is_critical_blocker
              points_deficit
          if (multiple_candidates.getD []).isEmpty then
            valueComparisonStage new_value is_critical_blocker active_sprint
              sprint_items productivity_model swap_candidate cc1
          else
            { action := "DEFER"
              target_to_remove := none
              reasoning := .deferMultipleItems
              constraints_checked :=
                cc1 ++ ["Zero-Sum: Multiple items for swap"] }
      else
        valueComparisonStage new_value is_critical_blocker active_sprint
          sprint_items productivity_model swap_candidate cc1

/-- The ranking order the spec claims for `get_sorted_backlog` (§4.1):
descending by score, ties broken by story points ascending. Defined from
the spec's words, to be compared with the implementation. -/
def specRankedOrder (e : BacklogEngine) (l : List (String × ℚ)) : Prop :=
  l.Pairwise (fun a b =>
    b.2 < a.2 ∨
    (a.2 = b.2 ∧
      ((e.tickets.lookup a.1).map TicketNode.story_points).getD 0 ≤
      ((e.tickets.lookup b.1).map TicketNode.story_points).getD 0))

/-- The new-item value computation as the spec claims it (§6, §7): missing
`business_value` and `urgency` default to `priority_map[priority]` (not to
a constant), missing `risk_penalty` to 0. Defined from the spec's words,
to be compared with `calculate_ticket_value`. -/
def specDefaultTicketValue (ticket : TicketDict) : ℚ :=
  let p := ticket.priority.getD "Medium"
  let business_value := ticket.business_value.getD (priority_map p)
  let urgency := ticket.urgency.getD (priority_map p)
  let risk_penalty := ticket.risk_penalty.getD 0
  let effective_urgency := max urgency (priority_map p * (4/5))
  max 0 ((1/2) * business_value + (3/10) * effective_urgency -
    (1/5) * risk_penalty)

/-- All dependencies of a ticket resolve in the graph to tickets with
status "done". -/
def depsDone (tickets : List (String × TicketNode)) (t : TicketNode) : Prop :=
  ∀ d ∈ t.dependencies,
    ∃ dt, tickets.lookup d = some dt ∧ dt.status = "done"

/-! Concrete inputs used by counterexamples and witnesses. -/

/-- Backlog ticket with score 30 (= 0.5·60) and 5 story points. -/
def tickA : TicketNode :=
  { id := "A", title := "ticket a", business_value := 60, urgency := 0,
    risk_penalty := 0, story_points := 5, dependencies := [],
    status := "backlog" }

/-- Backlog ticket with the same score 30 but only 2 story points. -/
def tickB : TicketNode :=
  { id := "B", title := "ticket b", business_value := 60, urgency := 0,
    risk_penalty := 0, story_points := 2, dependencies := [],
    status := "backlog" }

/-- Engine holding `tickA` then `tickB`, in that insertion order. -/
def engAB : BacklogEngine :=
  BacklogEngine.add_ticket (BacklogEngine.add_ticket {} tickA) tickB

/-- The spec's end-to-end scenario A ticket: bv=80, urg=80, risk=0, sp=5. -/
def tickX : TicketNode :=
  { id := "X", title := "ticket x", business_value := 80, urgency := 80,
    risk_penalty := 0, story_points := 5, dependencies := [],
    status := "backlog" }

/-- Engine holding only `tickX`. -/
def engX : BacklogEngine := BacklogEngine.add_ticket {} tickX

/-- A ticket referencing a dependency id unknown to every graph below. -/
def tickGhost : TicketNode :=
  { id := "G", title := "ghost dep", business_value := 60, urgency := 0,
    risk_penalty := 0, story_points := 3, dependencies := ["ghost"],
    status := "backlog" }

/-- Graph holding only `tickGhost`; the id "ghost" resolves to nothing. -/
def graphGhost : List (String × TicketNode) := [("G", tickGhost)]

/-- A ticket with negative story points (malformed per the spec). -/
def tickNeg : TicketNode :=
  { id := "N", title := "negative", business_value := 10, urgency := 10,
    risk_penalty := 0, story_points := -3, dependencies := [],
    status := "backlog" }

/-- A ticket with one dependency, on id "D". -/
def tickDep : TicketNode :=
  { id := "E", title := "dependent", business_value := 80, urgency := 40,
    risk_penalty := 10, story_points := 3, dependencies := ["D"],
    status := "backlog" }

/-- The dependency of `tickDep`, completed. -/
def depDoneTick : TicketNode :=
  { id := "D", title := "dep", business_value := 10, urgency := 10,
    risk_penalty := 0, story_points := 2, dependencies := [],
    status := "done" }

/-- The dependency of `tickDep`, still open. -/
def depOpenTick : TicketNode :=
  { id := "D", title := "dep", business_value := 10, urgency := 10,
    risk_penalty := 0, story_points := 2, dependencies := [],
    status := "in_sprint" }

/-- Graph where the dependency "D" is done. -/
def graphDepDone : List (String × TicketNode) := [("D", depDoneTick)]

/-- Graph where the dependency "D" is not done. -/
def graphDepOpen : List (String × TicketNode) := [("D", depOpenTick)]

/-- A small new item (2 SP) that fits remaining capacity. -/
def ntFits : TicketDict := { story_points := some 2 }

/-- The scenario-C new item: 20 SP, nothing else set. -/
def ntTwenty : TicketDict := { story_points := some 20 }

/-- A high-value new item: 3 SP, bv=90, urg=90. -/
def ntHigh : TicketDict :=
  { id := some "NEW", story_points := some 3, business_value := some 90,
    urgency := some 90 }

/-- A low-value new item: 3 SP, bv=10, urg=10, lowest priority. -/
def ntLow : TicketDict :=
  { id := some "LOW", story_points := some 3, business_value := some 10,
    urgency := some 10, priority := some "Lowest" }

/-- A Highest-priority new item with no value fields set. -/
def tHighestOnly : TicketDict := { priority := some "Highest" }

/-- Sprint item in "To Do" with 2 SP and low value. -/
def itemToDo : TicketDict :=
  { id := some "Y", story_points := some 2, business_value := some 10,
    urgency := some 10, status := some "To Do" }

/-- Sprint item in "To Do" with 2 SP and high value. -/
def itemToDoHigh : TicketDict :=
  { id := some "H", story_points := some 2, business_value := some 90,
    urgency := some 90, status := some "To Do" }

/-- Sprint item in "In Progress" with 26 SP. -/
def itemInProg : TicketDict :=
  { id := some "Z", story_points := some 26, status := some "In Progress" }

/-- Sprint items: one big In Progress item and one small low-value To Do
item (28 committed SP in total). -/
def itemsSwap : List TicketDict := [itemInProg, itemToDo]

/-- Sprint items: one big In Progress item and one small high-value To Do
item (28 committed SP in total). -/
def itemsDefer : List TicketDict := [itemInProg, itemToDoHigh]

/-- Active sprint with 5 committed SP of capacity. -/
def sprFive : SprintDict :=
  { metrics := some { committedSP := some 5 }, status := some "active" }

/-- Active sprint with 30 committed SP of capacity. -/
def sprThirty : SprintDict :=
  { metrics := some { committedSP := some 30 }, status := some "active" }

/-- The swap candidate the engine picks from `itemsDefer`. -/
def scDefer : SwapCandidate :=
  { item := itemToDoHigh
    reason := "To Do items have lowest context-switch cost"
    total_removed_points := 2 }

end ThreeEngine
namespace ThreeEngine

/-! Helper lemmas shared by the claim theorems. -/

/-- Looking up `k` after the in-place replacement branch of `dictInsert`
finds the new value. -/
theorem lookup_map_replace (k : String) (v : TicketNode) :
    ∀ g : List (String × TicketNode), (g.lookup k).isSome →
      ((g.map (fun p => if p.1 = k then (k, v) else p)).lookup k) = some v
  | [], h => by simp [List.lookup] at h
  | (a, b) :: rest, h => by
    by_cases hk : a = k
    · subst hk
      simp [List.lookup_cons]
    · simp only [List.map_cons, if_neg hk, List.lookup_cons,
        beq_false_of_ne (Ne.symm hk)] at h ⊢
      exact lookup_map_replace k v rest h

/-- Looking up `k` after the append branch of `dictInsert` finds the new
value. -/
theorem lookup_append_of_none (k : String) (v : TicketNode) :
    ∀ g : List (String × TicketNode), g.lookup k = none →
      ((g ++ [(k, v)]).lookup k) = some v
  | [], _ => by simp [List.lookup]
  | (a, b) :: rest, h => by
    by_cases hk : k = a
    · subst hk
      simp [List.lookup_cons] at h
    · simp only [List.cons_append, List.lookup_cons, beq_false_of_ne hk]
        at h ⊢
      exact lookup_append_of_none k v rest h

/-- `dictInsert` always makes `k` resolve to `v`. -/
theorem lookup_dictInsert (g : List (String × TicketNode)) (k : String)
    (v : TicketNode) : (dictInsert g k v).lookup k = some v := by
  unfold dictInsert
  split
  · exact lookup_map_replace k v g (by assumption)
  · next h =>
    exact lookup_append_of_none k v g (Option.not_isSome_iff_eq_none.mp h)

/-- The penalty fold ignores dependency ids that resolve to nothing. -/
theorem penalty_foldl_unknown (g : List (String × TicketNode)) :
    ∀ (l : List String) (acc : ℚ), (∀ d ∈ l, g.lookup d = none) →
      l.foldl
        (fun acc dep_id =>
          match g.lookup dep_id with
          | some dep_ticket =>
            if dep_ticket.status ≠ "done" then acc + 30 else acc
          | none => acc) acc = acc
  | [], acc, _ => rfl
  | d :: rest, acc, h => by
    have hd : g.lookup d = none := h d (List.mem_cons_self d rest)
    simp only [List.foldl_cons, hd]
    exact penalty_foldl_unknown g rest acc
      (fun x hx => h x (List.mem_cons_of_mem d hx))

/-- `roundHalfEven` is the identity on integers. -/
theorem roundHalfEven_intCast (n : ℤ) : roundHalfEven (n : ℚ) = n := by
  unfold roundHalfEven
  simp [Int.floor_intCast]

/-- The formatted deficit string for the scenario-C inputs. -/
theorem fmt1_fifteen : fmt1 15 = "15.0" := by
  unfold fmt1
  have h : (15 : ℚ) * 10 = ((150 : ℤ) : ℚ) := by norm_num
  rw [h, roundHalfEven_intCast]
  rfl

/-- Members of a status tier are sprint items with that (defaulted)
status. -/
theorem mem_of_statusTier {items : List TicketDict} {tier : String}
    {x : TicketDict} (h : x ∈ statusTier items tier) :
    x ∈ items ∧ x.status.getD "To Do" = tier := by
  unfold statusTier at h
  rw [List.mem_insertionSort] at h
  have h2 := List.mem_filter.mp h
  exact ⟨h2.1, by simpa using h2.2⟩

/-- A returned swap candidate is a sprint item from the "To Do" or
"In Review" tier, or — only for a critical blocker — the "In Progress"
tier. -/
theorem find_optimal_spec {items : List TicketDict} {crit : Bool}
    {need : ℚ} {sc : SwapCandidate}
    (h : find_optimal_swap_candidate items crit need = some sc) :
    sc.item ∈ items ∧
    (sc.item.status.getD "To Do" = "To Do" ∨
     sc.item.status.getD "To Do" = "In Review" ∨
     (crit = true ∧ sc.item.status.getD "To Do" = "In Progress")) := by
  unfold find_optimal_swap_candidate at h
  cases h1 : statusTier items "To Do" with
  | cons c t =>
    rw [h1] at h
    have hi : sc.item = c := by
      injection h with h2
      rw [← h2]
    have hm : c ∈ statusTier items "To Do" := by
      rw [h1]; exact List.mem_cons_self c t
    obtain ⟨hmem, hst⟩ := mem_of_statusTier hm
    rw [hi]
    exact ⟨hmem, Or.inl hst⟩
  | nil =>
    rw [h1] at h
    cases h2 : statusTier items "In Review" with
    | cons c t =>
      rw [h2] at h
      have hi : sc.item = c := by
        injection h with h3
        rw [← h3]
      have hm : c ∈ statusTier items "In Review" := by
        rw [h2]; exact List.mem_cons_self c t
      obtain ⟨hmem, hst⟩ := mem_of_statusTier hm
      rw [hi]
      exact ⟨hmem, Or.inr (Or.inl hst)⟩
    | nil =>
      rw [h2] at h
      cases hcrit : crit with
      | false =>
        rw [hcrit] at h
        simp at h
      | true =>
        rw [hcrit] at h
        simp only [if_true] at h
        cases h3 : statusTier items "In Progress" with
        | nil =>
          rw [h3] at h
          simp at h
        | cons c t =>
          rw [h3] at h
          have hi : sc.item = c := by
            injection h with h4
            rw [← h4]
          have hm : c ∈ statusTier items "In Progress" := by
            rw [h3]; exact List.mem_cons_self c t
          obtain ⟨hmem, hst⟩ := mem_of_statusTier hm
          rw [hi]
          exact ⟨hmem, Or.inr (Or.inr ⟨rfl, hst⟩)⟩

/-- When any sprint item is in "To Do", the candidate comes from the
"To Do" tier: the tier order is strict. -/
theorem find_optimal_prefers_todo {items : List TicketDict} {crit : Bool}
    {need : ℚ} {sc : SwapCandidate}
    (h : find_optimal_swap_candidate items crit need = some sc)
    (hne : ∃ x ∈ items, x.status.getD "To Do" = "To Do") :
    sc.item.status.getD "To Do" = "To Do" := by
  rcases hne with ⟨x, hx, hxs⟩
  have hxm : x ∈ statusTier items "To Do" := by
    unfold statusTier
    rw [List.mem_insertionSort]
    exact List.mem_filter.mpr ⟨hx, by simp [hxs]⟩
  cases h1 : statusTier items "To Do" with
  | nil =>
    rw [h1] at hxm
    exact absurd hxm (List.not_mem_nil x)
  | cons c t =>
    unfold find_optimal_swap_candidate at h
    rw [h1] at h
    have hi : sc.item = c := by
      injection h with h2
      rw [← h2]
    have hm : c ∈ statusTier items "To Do" := by
      rw [h1]; exact List.mem_cons_self c t
    rw [hi]
    exact (mem_of_statusTier hm).2

/-- Every result of `assess_sprint_interruption` either carries no target
and an action other than SWAP/CRITICAL, or names the chosen swap
candidate's id with action SWAP (non-critical) or CRITICAL (critical). -/
theorem assess_shape (nt : TicketDict) (spr : SprintDict)
    (items : List TicketDict) (pm : Option ProductivityModel) :
    ((assess_sprint_interruption nt spr items pm).target_to_remove = none ∧
     (assess_sprint_interruption nt spr items pm).action ≠ "SWAP" ∧
     (assess_sprint_interruption nt spr items pm).action ≠ "CRITICAL" ∧
     ((assess_sprint_interruption nt spr items pm).action = "ACCEPT" ∨
      (assess_sprint_interruption nt spr items pm).action = "DEFER" ∨
      (assess_sprint_interruption nt spr items pm).action = "SPLIT")) ∨
    (∃ sc : SwapCandidate,
      find_optimal_swap_candidate items (isCriticalBlocker nt)
        (nt.story_points.getD 0 - remainingCapacity spr items) = some sc ∧
      (assess_sprint_interruption nt spr items pm).target_to_remove =
        sc.item.id ∧
      (((assess_sprint_interruption nt spr items pm).action = "SWAP" ∧
        isCriticalBlocker nt = false) ∨
       ((assess_sprint_interruption nt spr items pm).action = "CRITICAL" ∧
        isCriticalBlocker nt = true))) := by
  simp only [assess_sprint_interruption]
  split
  · exact Or.inl ⟨rfl, by simp, by simp, Or.inl rfl⟩
  · split
    · exact Or.inl ⟨rfl, by simp, by simp, Or.inr (Or.inl rfl)⟩
    · next sc heq =>
      split
      · split
        · exact Or.inl ⟨rfl, by simp, by simp, Or.inr (Or.inr rfl)⟩
        · split
          · simp only [valueComparisonStage]
            split
            · exact Or.inl ⟨rfl, by simp, by simp, Or.inr (Or.inl rfl)⟩
            · split
              · next hc =>
                exact Or.inr ⟨sc, heq, rfl, Or.inr ⟨rfl, hc⟩⟩
              · next hc =>
                exact Or.inr ⟨sc, heq, rfl,
                  Or.inl ⟨rfl, Bool.not_eq_true _ ▸ eq_false_of_ne_true hc⟩⟩
          · exact Or.inl ⟨rfl, by simp, by simp, Or.inr (Or.inl rfl)⟩
      · simp only [valueComparisonStage]
        split
        · exact Or.inl ⟨rfl, by simp, by simp, Or.inr (Or.inl rfl)⟩
        · split
          · next hc =>
            exact Or.inr ⟨sc, heq, rfl, Or.inr ⟨rfl, hc⟩⟩
          · next hc =>
            exact Or.inr ⟨sc, heq, rfl,
              Or.inl ⟨rfl, Bool.not_eq_true _ ▸ eq_false_of_ne_true hc⟩⟩

end ThreeEngine
namespace ThreeEngine

/-- Claim C1: whenever the new item's story points fit the remaining
capacity (committed capacity minus the sum of the sprint items' points),
`assess_sprint_interruption` returns ACCEPT with no removal target,
regardless of every other input. -/
theorem accept_when_fits (new_ticket : TicketDict)
    (active_sprint : SprintDict) (sprint_items : List TicketDict)
    (pm : Option ProductivityModel)
    (h : new_ticket.story_points.getD 0 ≤
      remainingCapacity active_sprint sprint_items) :
    (assess_sprint_interruption new_ticket active_sprint sprint_items
      pm).action = "ACCEPT" ∧
    (assess_sprint_interruption new_ticket active_sprint sprint_items
      pm).target_to_remove = none := by
  simp only [assess_sprint_interruption]
  rw [if_pos h]
  exact ⟨rfl, rfl⟩

/-- Witness for C1: a 2-SP item against 5 SP of free capacity is
accepted. -/
theorem accept_when_fits_witness :
    ntFits.story_points.getD 0 ≤ remainingCapacity sprFive [] ∧
    (assess_sprint_interruption ntFits sprFive [] none).action =
      "ACCEPT" ∧
    (assess_sprint_interruption ntFits sprFive [] none).target_to_remove =
      none :=
  ⟨by norm_num [ntFits, remainingCapacity, sprintCapacity, currentPoints,
     sprFive],
   (accept_when_fits ntFits sprFive [] none
     (by norm_num [ntFits, remainingCapacity, sprintCapacity, currentPoints,
       sprFive])).1,
   (accept_when_fits ntFits sprFive [] none
     (by norm_num [ntFits, remainingCapacity, sprintCapacity, currentPoints,
       sprFive])).2⟩

/-- Claim C2: for a new item that is not a flagged critical blocker, any
removal target named by `assess_sprint_interruption` (as a SWAP or
CRITICAL result) is a sprint item from the "To Do" or "In Review" tier,
never one whose status is "In Progress"; and when a "To Do" item exists
the candidate comes from the "To Do" tier (strict tier order). -/
theorem noncritical_swap_not_in_progress (nt : TicketDict)
    (spr : SprintDict) (items : List TicketDict)
    (pm : Option ProductivityModel)
    (hcrit : isCriticalBlocker nt = false) :
    ((assess_sprint_interruption nt spr items pm).action = "SWAP" ∨
     (assess_sprint_interruption nt spr items pm).action = "CRITICAL") →
    ∃ it ∈ items,
      (assess_sprint_interruption nt spr items pm).target_to_remove =
        it.id ∧
      (it.status.getD "To Do" = "To Do" ∨
       it.status.getD "To Do" = "In Review") ∧
      it.status ≠ some "In Progress" ∧
      ((∃ x ∈ items, x.status.getD "To Do" = "To Do") →
        it.status.getD "To Do" = "To Do") := by
  intro hact
  rcases assess_shape nt spr items pm with
    ⟨-, hns, hnc, -⟩ | ⟨sc, hfind, ht, hor⟩
  · rcases hact with h | h
    · exact absurd h hns
    · exact absurd h hnc
  · obtain ⟨hmem, htier⟩ := find_optimal_spec hfind
    have hnip : ∀ s : String, sc.item.status.getD "To Do" = s →
        s ≠ "In Progress" → sc.item.status ≠ some "In Progress" := by
      intro s hgd hsne heq
      rw [heq] at hgd
      simp only [Option.getD_some] at hgd
      exact hsne (hgd ▸ rfl)
    have hpref := fun hex => find_optimal_prefers_todo hfind hex
    rcases htier with h | h | ⟨hc, -⟩
    · exact ⟨sc.item, hmem, ht, Or.inl h, hnip _ h (by simp), hpref⟩
    · exact ⟨sc.item, hmem, ht, Or.inr h, hnip _ h (by simp), hpref⟩
    · rw [hc] at hcrit
      exact absurd hcrit (by simp)

/-- Witness for C2: a non-critical high-value 3-SP item over a full sprint
containing one "In Progress" and one "To Do" item. -/
theorem noncritical_swap_witness :
    isCriticalBlocker ntHigh = false ∧
    (((assess_sprint_interruption ntHigh sprThirty itemsSwap none).action =
        "SWAP" ∨
      (assess_sprint_interruption ntHigh sprThirty itemsSwap none).action =
        "CRITICAL") →
     ∃ it ∈ itemsSwap,
       (assess_sprint_interruption ntHigh sprThirty itemsSwap
         none).target_to_remove = it.id ∧
       (it.status.getD "To Do" = "To Do" ∨
        it.status.getD "To Do" = "In Review") ∧
       it.status ≠ some "In Progress" ∧
       ((∃ x ∈ itemsSwap, x.status.getD "To Do" = "To Do") →
         it.status.getD "To Do" = "To Do")) :=
  ⟨by decide,
   noncritical_swap_not_in_progress ntHigh sprThirty itemsSwap none
     (by decide)⟩

/-- Claim C3: when the assessment reaches the value comparison with a swap
candidate and the switch-cost value is at least the value advantage of the
new item over the removed one (net ≤ 0), the action is DEFER — never
SWAP — and the result carries the four numeric fields. -/
theorem defer_when_switch_cost_dominates (nt : TicketDict)
    (spr : SprintDict) (items : List TicketDict)
    (pm : Option ProductivityModel) (sc : SwapCandidate)
    (h1 : ¬ nt.story_points.getD 0 ≤ remainingCapacity spr items)
    (h2 : find_optimal_swap_candidate items (isCriticalBlocker nt)
      (nt.story_points.getD 0 - remainingCapacity spr items) = some sc)
    (h3 : sc.total_removed_points <
        nt.story_points.getD 0 - remainingCapacity spr items →
      nt.story_points.getD 0 ≤ 8 ∧
      (find_multiple_swap_candidates items (isCriticalBlocker nt)
        (nt.story_points.getD 0 -
          remainingCapacity spr items)).getD [] = [])
    (h4 : assessSwitchCostValue spr items pm sc.item ≥
      calculate_ticket_value nt - calculate_ticket_value sc.item) :
    (assess_sprint_interruption nt spr items pm).action = "DEFER" ∧
    (assess_sprint_interruption nt spr items pm).action ≠ "SWAP" ∧
    (assess_sprint_interruption nt spr items pm).new_item_value =
      some (calculate_ticket_value nt) ∧
    (assess_sprint_interruption nt spr items pm).removed_item_value =
      some (calculate_ticket_value sc.item) ∧
    (assess_sprint_interruption nt spr items pm).switch_cost =
      some (assessSwitchCostValue spr items pm sc.item) ∧
    (assess_sprint_interruption nt spr items pm).value_net =
      some (calculate_ticket_value nt - (calculate_ticket_value sc.item +
        assessSwitchCostValue spr items pm sc.item)) := by
  have hnet : calculate_ticket_value nt - (calculate_ticket_value sc.item +
      assessSwitchCostValue spr items pm sc.item) ≤ 0 := by linarith
  have hstage : assess_sprint_interruption nt spr items pm =
      valueComparisonStage (calculate_ticket_value nt)
        (isCriticalBlocker nt) spr items pm sc
        ["Zero-Sum: Need to remove " ++
          fmt1 (nt.story_points.getD 0 - remainingCapacity spr items) ++
          " SP"] := by
    simp only [assess_sprint_interruption]
    rw [if_neg h1, h2]
    split
    · next habs => exact absurd habs (by simp)
    · next w heq =>
      injection heq with heq2
      subst heq2
      split
      · next hlt =>
        obtain ⟨h8, hmul⟩ := h3 hlt
        rw [if_neg (not_lt.mpr h8), hmul]
        simp
      · rfl
  rw [hstage]
  simp only [valueComparisonStage]
  rw [if_pos hnet]
  exact ⟨rfl, by simp, rfl, rfl, rfl, rfl⟩

end ThreeEngine
namespace ThreeEngine

/-- The capacity check fails for the C3 witness inputs: 3 SP against 2 SP
of free capacity. -/
theorem defer_witness_h1 :
    ¬ ntLow.story_points.getD 0 ≤ remainingCapacity sprThirty itemsDefer := by
  norm_num [ntLow, remainingCapacity, sprintCapacity, currentPoints,
    itemsDefer, itemInProg, itemToDoHigh, sprThirty]

/-- The engine picks the high-value "To Do" item for the C3 witness
inputs. -/
theorem defer_witness_h2 :
    find_optimal_swap_candidate itemsDefer (isCriticalBlocker ntLow)
      (ntLow.story_points.getD 0 - remainingCapacity sprThirty itemsDefer)
      = some scDefer := by
  unfold find_optimal_swap_candidate
  have h1 : statusTier itemsDefer "To Do" = [itemToDoHigh] := by
    unfold statusTier
    simp [itemsDefer, itemInProg, itemToDoHigh, List.insertionSort,
      List.orderedInsert]
  rw [h1]
  rfl

/-- The switch-cost value dominates the value difference for the C3
witness inputs. -/
theorem defer_witness_h4 :
    assessSwitchCostValue sprThirty itemsDefer none scDefer.item ≥
      calculate_ticket_value ntLow - calculate_ticket_value scDefer.item := by
  simp only [assessSwitchCostValue, calculate_context_switching_cost,
    convert_cost_to_value, inProgressCount, productivityImpact,
    calculate_ticket_value, priority_map, ntLow, itemToDoHigh, itemsDefer,
    itemInProg, sprThirty, scDefer]
  simp
  norm_num

/-- Witness for C3: a low-value 3-SP item against a sprint whose only
viable candidate is a high-value "To Do" item is deferred, with the
numeric breakdown attached. -/
theorem defer_witness :
    (¬ ntLow.story_points.getD 0 ≤
        remainingCapacity sprThirty itemsDefer) ∧
    (assess_sprint_interruption ntLow sprThirty itemsDefer none).action =
      "DEFER" ∧
    (assess_sprint_interruption ntLow sprThirty itemsDefer none).action ≠
      "SWAP" ∧
    (assess_sprint_interruption ntLow sprThirty itemsDefer
        none).value_net =
      some (calculate_ticket_value ntLow -
        (calculate_ticket_value scDefer.item +
          assessSwitchCostValue sprThirty itemsDefer none scDefer.item)) := by
  have h3 : scDefer.total_removed_points <
      ntLow.story_points.getD 0 - remainingCapacity sprThirty itemsDefer →
      ntLow.story_points.getD 0 ≤ 8 ∧
      (find_multiple_swap_candidates itemsDefer (isCriticalBlocker ntLow)
        (ntLow.story_points.getD 0 -
          remainingCapacity sprThirty itemsDefer)).getD [] = [] := by
    intro hlt
    exfalso
    simp only [scDefer, ntLow, itemsDefer, itemInProg, itemToDoHigh,
      sprThirty, remainingCapacity, sprintCapacity, currentPoints,
      Option.getD_some, List.map_cons, List.map_nil, List.sum_cons,
      List.sum_nil] at hlt
    norm_num at hlt
  refine ⟨defer_witness_h1, ?_, ?_, ?_⟩
  · exact (defer_when_switch_cost_dominates ntLow sprThirty itemsDefer none
      scDefer defer_witness_h1 defer_witness_h2 h3 defer_witness_h4).1
  · exact (defer_when_switch_cost_dominates ntLow sprThirty itemsDefer none
      scDefer defer_witness_h1 defer_witness_h2 h3 defer_witness_h4).2.1
  · exact (defer_when_switch_cost_dominates ntLow sprThirty itemsDefer none
      scDefer defer_witness_h1 defer_witness_h2 h3 defer_witness_h4).2.2.2.2.2

/-- Dependencies that all resolve and pass the unmet-dependency check are
all "done". -/
theorem depsDone_of_not_unmet {tickets : List (String × TicketNode)}
    {t : TicketNode}
    (hknown : ∀ d ∈ t.dependencies, (tickets.lookup d).isSome)
    (h : hasUnmetDep tickets t = false) :
    ∀ d ∈ t.dependencies,
      ∃ dt, tickets.lookup d = some dt ∧ dt.status = "done" := by
  intro d hd
  obtain ⟨dt, hdt⟩ := Option.isSome_iff_exists.mp (hknown d hd)
  refine ⟨dt, hdt, ?_⟩
  unfold hasUnmetDep at h
  rw [List.any_eq_false] at h
  have h2 := h d hd
  rw [hdt] at h2
  simpa using h2

/-- The planning fold keeps the running total within capacity and selects
only tickets whose dependencies are all "done". -/
theorem planFold_inv (tickets : List (String × TicketNode)) (capacity : ℚ)
    (exclude : List String)
    (hknown : ∀ k t, tickets.lookup k = some t →
      ∀ d ∈ t.dependencies, (tickets.lookup d).isSome) :
    ∀ (l : List (String × ℚ)) (s : PlanState),
      s.total ≤ capacity →
      (∀ tid ∈ s.selected, ∃ t, tickets.lookup tid = some t ∧
        ∀ d ∈ t.dependencies,
          ∃ dt, tickets.lookup d = some dt ∧ dt.status = "done") →
      (l.foldl (planStep tickets capacity exclude) s).total ≤ capacity ∧
      (∀ tid ∈ (l.foldl (planStep tickets capacity exclude) s).selected,
        ∃ t, tickets.lookup tid = some t ∧
          ∀ d ∈ t.dependencies,
            ∃ dt, tickets.lookup d = some dt ∧ dt.status = "done")
  | [], s, h1, h2 => ⟨h1, h2⟩
  | p :: rest, s, h1, h2 => by
    rw [List.foldl_cons]
    refine planFold_inv tickets capacity exclude hknown rest
      (planStep tickets capacity exclude s p) ?_ ?_
    · unfold planStep
      split
      · exact h1
      · split
        · exact h1
        · next ticket hlook =>
          split
          · exact h1
          · next hfit =>
            split
            · exact h1
            · exact not_lt.mp hfit
    · unfold planStep
      split
      · exact h2
      · split
        · exact h2
        · next ticket hlook =>
          split
          · exact h2
          · next hfit =>
            split
            · exact h2
            · next hunmet =>
              intro tid htid
              rcases List.mem_append.mp htid with hin | hin
              · exact h2 tid hin
              · have : tid = p.1 := List.mem_singleton.mp hin
                subst this
                exact ⟨ticket, hlook,
                  depsDone_of_not_unmet (hknown _ ticket hlook)
                    (eq_false_of_ne_true hunmet)⟩

/-- Claim C4: for a non-negative capacity, `plan_sprint` never exceeds the
capacity; under the precondition that every dependency id resolves in the
graph, every selected ticket has all dependencies "done"; and a candidate
that does not fit or has an unmet dependency is skipped (state unchanged)
while the fold continues over the remaining candidates. -/
theorem plan_sprint_capacity_and_deps (e : BacklogEngine) (capacity : ℚ)
    (exclude_tickets : Option (List String))
    (hcap : 0 ≤ capacity)
    (hknown : ∀ k t, e.tickets.lookup k = some t →
      ∀ d ∈ t.dependencies, (e.tickets.lookup d).isSome) :
    (plan_sprint e capacity exclude_tickets).total_points ≤ capacity ∧
    (∀ tid ∈ (plan_sprint e capacity exclude_tickets).selected_tickets,
      ∃ t, e.tickets.lookup tid = some t ∧
        ∀ d ∈ t.dependencies,
          ∃ dt, e.tickets.lookup d = some dt ∧ dt.status = "done") ∧
    (∀ (s : PlanState) (p : String × ℚ) (rest : List (String × ℚ))
        (t : TicketNode),
      e.tickets.lookup p.1 = some t →
      p.1 ∉ exclude_tickets.getD [] →
      (capacity < s.total + t.story_points ∨
        hasUnmetDep e.tickets t = true) →
      (planStep e.tickets capacity (exclude_tickets.getD []) s p).selected =
        s.selected ∧
      (planStep e.tickets capacity (exclude_tickets.getD []) s p).total =
        s.total ∧
      (p :: rest).foldl (planStep e.tickets capacity
        (exclude_tickets.getD [])) s =
        rest.foldl (planStep e.tickets capacity (exclude_tickets.getD []))
          (planStep e.tickets capacity (exclude_tickets.getD []) s p)) := by
  have hmain := planFold_inv e.tickets capacity (exclude_tickets.getD [])
    hknown (e.get_sorted_backlog (some "backlog")) ⟨[], 0, []⟩ hcap
    (by intro tid htid; exact absurd htid (List.not_mem_nil tid))
  refine ⟨hmain.1, hmain.2, ?_⟩
  intro s p rest t hlook hex hskip
  have hstep : (planStep e.tickets capacity (exclude_tickets.getD []) s
      p).selected = s.selected ∧
      (planStep e.tickets capacity (exclude_tickets.getD []) s p).total =
        s.total := by
    unfold planStep
    rw [if_neg hex]
    split
    · next heq => rw [hlook] at heq; exact absurd heq (by simp)
    · next ticket heq =>
      rw [hlook] at heq
      injection heq with heq2
      subst heq2
      by_cases hfit : s.total + t.story_points > capacity
      · rw [if_pos hfit]
        exact ⟨rfl, rfl⟩
      · rw [if_neg hfit]
        rcases hskip with hs | hs
        · exact absurd hs hfit
        · rw [if_pos hs]
          exact ⟨rfl, rfl⟩
  exact ⟨hstep.1, hstep.2, rfl⟩

/-- Witness for C4: the spec's scenario-A backlog (one 5-SP ticket,
capacity 5) satisfies both guarantees. -/
theorem plan_sprint_witness :
    (0 : ℚ) ≤ 5 ∧
    (plan_sprint engX 5 none).total_points ≤ 5 ∧
    (∀ tid ∈ (plan_sprint engX 5 none).selected_tickets,
      ∃ t, engX.tickets.lookup tid = some t ∧
        ∀ d ∈ t.dependencies,
          ∃ dt, engX.tickets.lookup d = some dt ∧ dt.status = "done") := by
  have hknown : ∀ k t, engX.tickets.lookup k = some t →
      ∀ d ∈ t.dependencies, (engX.tickets.lookup d).isSome := by
    intro k t h d hd
    by_cases hk : k = "X"
    · subst hk
      simp [engX, BacklogEngine.add_ticket, dictInsert, tickX,
        List.lookup] at h
      rw [← h] at hd
      simp [tickX] at hd
    · simp [engX, BacklogEngine.add_ticket, dictInsert, tickX, List.lookup,
        beq_false_of_ne hk] at h
  refine ⟨by norm_num, ?_, ?_⟩
  · exact (plan_sprint_capacity_and_deps engX 5 none (by norm_num)
      hknown).1
  · exact (plan_sprint_capacity_and_deps engX 5 none (by norm_num)
      hknown).2.1

end ThreeEngine
namespace ThreeEngine

/-- Claim C5 (amended): the ranked backlog is sorted descending by
selection score. Equal-score entries keep their dict-insertion order
(Python's stable sort); they are not reordered by story points — see the
counterexample `tie_order_not_by_story_points_cex`. -/
theorem ranked_backlog_sorted_desc (e : BacklogEngine) (f : Option String) :
    List.Sorted scoreDesc (e.get_sorted_backlog f) := by
  unfold BacklogEngine.get_sorted_backlog
  exact List.sorted_insertionSort scoreDesc _

/-- Counterexample to C5 as stated: with two equal-score tickets "A"
(5 SP, inserted first) and "B" (2 SP), the ranked backlog is not ordered
by story points ascending within the tie — "A" stays first. -/
theorem tie_order_not_by_story_points_cex :
    ¬ specRankedOrder engAB (engAB.get_sorted_backlog (some "backlog")) := by
  have ht : engAB.tickets = [("A", tickA), ("B", tickB)] := by
    simp [engAB, BacklogEngine.add_ticket, dictInsert, tickA, tickB,
      List.lookup]
  have hA : tickA.calculate_selection_score [("A", tickA), ("B", tickB)]
      = 30 := by
    unfold TicketNode.calculate_selection_score TicketNode.dependency_penalty
    norm_num [tickA, TicketNode.base_score]
  have hB : tickB.calculate_selection_score [("A", tickA), ("B", tickB)]
      = 30 := by
    unfold TicketNode.calculate_selection_score TicketNode.dependency_penalty
    norm_num [tickB, TicketNode.base_score]
  have hout : engAB.get_sorted_backlog (some "backlog")
      = [("A", 30), ("B", 30)] := by
    unfold BacklogEngine.get_sorted_backlog BacklogEngine.calculate_all_scores
    rw [ht]
    simp only [List.map_cons, List.map_nil, hA, hB]
    simp [List.lookup, tickA, tickB, List.insertionSort, List.orderedInsert,
      scoreDesc]
  intro h
  rw [hout] at h
  rcases List.pairwise_cons.mp h with ⟨hrel, -⟩
  have hAB := hrel ("B", 30) (List.mem_cons_self _ _)
  rcases hAB with hlt | ⟨-, hsp⟩
  · exact absurd hlt (lt_irrefl _)
  · rw [ht] at hsp
    simp [List.lookup, tickA, tickB] at hsp
    norm_num at hsp

/-- Claim C6 (amended): when `business_value`, `urgency` and
`risk_penalty` are all absent, the value used by the interruption decision
is `max 0 (25 + 0.3 * max 50 (0.8 * priority_map[priority]))`: both
missing fields default to the constant 50 (not to the priority mapping)
and the missing risk penalty to 0; priority enters only through the
effective-urgency blend. -/
theorem missing_fields_default_constant (t : TicketDict)
    (hb : t.business_value = none) (hu : t.urgency = none)
    (hr : t.risk_penalty = none) :
    calculate_ticket_value t =
      max 0 (25 + (3/10) *
        max 50 (priority_map (t.priority.getD "Medium") * (4/5))) := by
  unfold calculate_ticket_value
  rw [hb, hu, hr]
  norm_num

/-- Counterexample to C6 as stated: a Highest-priority item with no value
fields is valued 46.6 by the code (business value defaulted to 50), while
the spec's priority-derived defaulting would give 72 (business value 90,
urgency 90). -/
theorem priority_default_mismatch_cex :
    calculate_ticket_value tHighestOnly = 233/5 ∧
    specDefaultTicketValue tHighestOnly = 72 ∧
    calculate_ticket_value tHighestOnly ≠
      specDefaultTicketValue tHighestOnly := by
  have h1 : calculate_ticket_value tHighestOnly = 233/5 := by
    norm_num [calculate_ticket_value, tHighestOnly, priority_map]
  have h2 : specDefaultTicketValue tHighestOnly = 72 := by
    norm_num [specDefaultTicketValue, tHighestOnly, priority_map]
  refine ⟨h1, h2, ?_⟩
  rw [h1, h2]
  norm_num

/-- Witness for C6: the Highest-priority item with all value fields
absent evaluates to 46.6 = 233/5. -/
theorem missing_fields_witness :
    tHighestOnly.business_value = none ∧
    calculate_ticket_value tHighestOnly =
      max 0 (25 + (3/10) *
        max 50 (priority_map (tHighestOnly.priority.getD "Medium") *
          (4/5))) ∧
    calculate_ticket_value tHighestOnly = 233/5 :=
  ⟨rfl, missing_fields_default_constant tHighestOnly rfl rfl rfl,
   by norm_num [calculate_ticket_value, tHighestOnly, priority_map]⟩

/-- Claim C7 (amended): the code performs no input validation:
`add_ticket` stores any ticket, negative story points included, and a
dependency id unknown to the graph is silently treated as satisfied — it
contributes no penalty and raises no error, the score staying
`max 0 base_score`. -/
theorem no_validation_silent_coercion :
    (∀ (e : BacklogEngine) (t : TicketNode),
      ((e.add_ticket t).tickets.lookup t.id) = some t) ∧
    (∀ (t : TicketNode) (g : List (String × TicketNode)),
      (∀ d ∈ t.dependencies, g.lookup d = none) →
      t.dependency_penalty g = 0 ∧
      t.calculate_selection_score g = max 0 t.base_score) := by
  constructor
  · intro e t
    exact lookup_dictInsert e.tickets t.id t
  · intro t g h
    have hp : t.dependency_penalty g = 0 :=
      penalty_foldl_unknown g t.dependencies 0 h
    refine ⟨hp, ?_⟩
    unfold TicketNode.calculate_selection_score
    rw [hp, sub_zero]

/-- Counterexample to C7 as stated: a ticket whose only dependency id
"ghost" is unknown to the graph is scored with zero penalty — exactly the
silent coercion the claim says is rejected — instead of any validation
failure. -/
theorem unknown_dependency_no_penalty_cex :
    tickGhost.dependency_penalty graphGhost = 0 ∧
    tickGhost.calculate_selection_score graphGhost =
      max 0 tickGhost.base_score ∧
    tickGhost.calculate_selection_score graphGhost = 30 := by
  have hp : tickGhost.dependency_penalty graphGhost = 0 := by
    simp [TicketNode.dependency_penalty, tickGhost, graphGhost, List.lookup]
  have hb : tickGhost.base_score = 30 := by
    norm_num [TicketNode.base_score, tickGhost]
  refine ⟨hp, ?_, ?_⟩
  · unfold TicketNode.calculate_selection_score
    rw [hp, sub_zero]
  · unfold TicketNode.calculate_selection_score
    rw [hp, sub_zero, hb]
    norm_num

/-- Witness for C7: a ticket with story points −3 is stored unchanged, and
the unknown-dependency ticket is scored without penalty. -/
theorem no_validation_witness :
    ((BacklogEngine.add_ticket {} tickNeg).tickets.lookup "N") =
      some tickNeg ∧
    tickGhost.dependency_penalty graphGhost = 0 :=
  ⟨no_validation_silent_coercion.1 {} tickNeg,
   (no_validation_silent_coercion.2 tickGhost graphGhost
     (by simp [tickGhost, graphGhost, List.lookup])).1⟩

end ThreeEngine
namespace ThreeEngine

/-- Claim C8 (amended): with a 20-SP new item, a 15-SP capacity deficit,
no "To Do" or "In Review" sprint items and no critical-blocker flag, the
assessment is DEFER and `constraints_checked` contains the entry
"WIP-Safety: No viable swap candidates" (the source's exact wording; the
spec's "WIP-Safety: no viable candidates" does not occur — see the
counterexample). -/
theorem scenario_c_defer (nt : TicketDict) (spr : SprintDict)
    (items : List TicketDict) (pm : Option ProductivityModel)
    (hsp : nt.story_points.getD 0 = 20)
    (hdef : nt.story_points.getD 0 - remainingCapacity spr items = 15)
    (hno : ∀ it ∈ items, it.status.getD "To Do" ≠ "To Do" ∧
      it.status.getD "To Do" ≠ "In Review")
    (hcrit : isCriticalBlocker nt = false) :
    (assess_sprint_interruption nt spr items pm).action = "DEFER" ∧
    "WIP-Safety: No viable swap candidates" ∈
      (assess_sprint_interruption nt spr items pm).constraints_checked := by
  have hrem : remainingCapacity spr items = 5 := by linarith
  have hnle : ¬ nt.story_points.getD 0 ≤ remainingCapacity spr items := by
    rw [hsp, hrem]; norm_num
  have hf1 : items.filter
      (fun item => item.status.getD "To Do" == "To Do") = [] :=
    List.filter_eq_nil_iff.mpr (fun a ha => by simp [(hno a ha).1])
  have hf2 : items.filter
      (fun item => item.status.getD "To Do" == "In Review") = [] :=
    List.filter_eq_nil_iff.mpr (fun a ha => by simp [(hno a ha).2])
  have htodo : statusTier items "To Do" = [] := by
    unfold statusTier
    rw [hf1]
    rfl
  have hrev : statusTier items "In Review" = [] := by
    unfold statusTier
    rw [hf2]
    rfl
  have hcand : ∀ need : ℚ, find_optimal_swap_candidate items
      (isCriticalBlocker nt) need = none := by
    intro need
    unfold find_optimal_swap_candidate
    rw [htodo, hrev, hcrit]
    simp
  simp only [assess_sprint_interruption]
  rw [if_neg hnle, hcand]
  exact ⟨rfl, by simp⟩

/-- Counterexample to C8 as stated: on the scenario-C inputs the action is
DEFER, but the spec's constraint string "WIP-Safety: no viable candidates"
is not in `constraints_checked` (the source writes "WIP-Safety: No viable
swap candidates"). -/
theorem scenario_c_string_cex :
    (assess_sprint_interruption ntTwenty sprFive [] none).action =
      "DEFER" ∧
    "WIP-Safety: no viable candidates" ∉
      (assess_sprint_interruption ntTwenty sprFive []
        none).constraints_checked := by
  have hnle : ¬ ntTwenty.story_points.getD 0 ≤
      remainingCapacity sprFive [] := by
    norm_num [ntTwenty, remainingCapacity, sprintCapacity, currentPoints,
      sprFive]
  have hdef : ntTwenty.story_points.getD 0 -
      remainingCapacity sprFive [] = 15 := by
    norm_num [ntTwenty, remainingCapacity, sprintCapacity, currentPoints,
      sprFive]
  have hcand : ∀ need : ℚ, find_optimal_swap_candidate []
      (isCriticalBlocker ntTwenty) need = none := by
    intro need
    unfold find_optimal_swap_candidate
    cases h : isCriticalBlocker ntTwenty <;> simp [statusTier, h]
  simp only [assess_sprint_interruption]
  rw [if_neg hnle, hcand, hdef, fmt1_fifteen]
  refine ⟨rfl, ?_⟩
  decide

/-- Witness for C8: the concrete scenario-C inputs (20 SP item, 5 SP free,
empty sprint) hit the amended conclusion. -/
theorem scenario_c_witness :
    ntTwenty.story_points.getD 0 = 20 ∧
    (assess_sprint_interruption ntTwenty sprFive [] none).action =
      "DEFER" ∧
    "WIP-Safety: No viable swap candidates" ∈
      (assess_sprint_interruption ntTwenty sprFive []
        none).constraints_checked :=
  ⟨rfl,
   (scenario_c_defer ntTwenty sprFive [] none rfl
     (by norm_num [ntTwenty, remainingCapacity, sprintCapacity,
       currentPoints, sprFive])
     (by simp) (by decide)).1,
   (scenario_c_defer ntTwenty sprFive [] none rfl
     (by norm_num [ntTwenty, remainingCapacity, sprintCapacity,
       currentPoints, sprFive])
     (by simp) (by decide)).2⟩

/-- Claim C9: for a ticket with exactly one dependency that resolves in
the graph, the score before the floor is exactly 30 lower when the
dependency's status is not "done" than when it is "done", and the returned
score is `max 0 (base_score - dependency_penalty)`. -/
theorem dependency_penalty_exactly_thirty
    (t : TicketNode) (d : String)
    (g1 g2 : List (String × TicketNode)) (dt1 dt2 : TicketNode)
    (hdeps : t.dependencies = [d])
    (h1 : g1.lookup d = some dt1) (hs1 : dt1.status = "done")
    (h2 : g2.lookup d = some dt2) (hs2 : dt2.status ≠ "done") :
    t.base_score - t.dependency_penalty g2 =
      (t.base_score - t.dependency_penalty g1) - 30 ∧
    (∀ g, t.calculate_selection_score g =
      max 0 (t.base_score - t.dependency_penalty g)) := by
  constructor
  · unfold TicketNode.dependency_penalty
    rw [hdeps]
    simp only [List.foldl_cons, List.foldl_nil, h1, h2]
    rw [if_pos hs2, if_neg (not_not_intro hs1)]
    ring
  · intro g
    rfl

/-- Witness for C9: the one-dependency ticket `tickDep` scores exactly 30
lower against the open-dependency graph than against the done-dependency
graph. -/
theorem dependency_penalty_witness :
    tickDep.base_score - tickDep.dependency_penalty graphDepOpen =
      (tickDep.base_score - tickDep.dependency_penalty graphDepDone) - 30 ∧
    tickDep.calculate_selection_score graphDepOpen =
      max 0 (tickDep.base_score - tickDep.dependency_penalty graphDepOpen) :=
  ⟨(dependency_penalty_exactly_thirty tickDep "D" graphDepDone graphDepOpen
      depDoneTick depOpenTick rfl rfl rfl rfl (by decide)).1,
   (dependency_penalty_exactly_thirty tickDep "D" graphDepDone graphDepOpen
      depDoneTick depOpenTick rfl rfl rfl rfl (by decide)).2 graphDepOpen⟩

/-- Claim C10: when every sprint item carries an id, the result of
`assess_sprint_interruption` has a non-`none` `target_to_remove` exactly
when the action is SWAP or CRITICAL; ACCEPT, DEFER and SPLIT results
always carry `target_to_remove = none`. -/
theorem target_iff_swap_or_critical (nt : TicketDict) (spr : SprintDict)
    (items : List TicketDict) (pm : Option ProductivityModel)
    (h : ∀ it ∈ items, it.id.isSome) :
    ((assess_sprint_interruption nt spr items pm).target_to_remove.isSome ↔
      ((assess_sprint_interruption nt spr items pm).action = "SWAP" ∨
       (assess_sprint_interruption nt spr items pm).action =
         "CRITICAL")) ∧
    (((assess_sprint_interruption nt spr items pm).action = "ACCEPT" ∨
      (assess_sprint_interruption nt spr items pm).action = "DEFER" ∨
      (assess_sprint_interruption nt spr items pm).action = "SPLIT") →
      (assess_sprint_interruption nt spr items pm).target_to_remove =
        none) := by
  rcases assess_shape nt spr items pm with
    ⟨ht, hns, hnc, -⟩ | ⟨sc, hfind, ht, hor⟩
  · constructor
    · rw [ht]
      simp [hns, hnc]
    · intro _
      exact ht
  · have hid : sc.item.id.isSome := h sc.item (find_optimal_spec hfind).1
    constructor
    · rw [ht]
      constructor
      · intro _
        rcases hor with ⟨ha, -⟩ | ⟨ha, -⟩
        · exact Or.inl ha
        · exact Or.inr ha
      · intro _
        exact hid
    · intro hacts
      rcases hor with ⟨ha, -⟩ | ⟨ha, -⟩ <;> rw [ha] at hacts <;>
        rcases hacts with h1 | h1 | h1 <;> simp at h1

/-- Witness for C10: the full sprint `itemsSwap`, whose items all carry
ids, satisfies the equivalence. -/
theorem target_iff_witness :
    (∀ it ∈ itemsSwap, it.id.isSome) ∧
    (((assess_sprint_interruption ntLow sprThirty itemsSwap
        none).target_to_remove.isSome ↔
      ((assess_sprint_interruption ntLow sprThirty itemsSwap none).action =
        "SWAP" ∨
       (assess_sprint_interruption ntLow sprThirty itemsSwap none).action =
        "CRITICAL")) ∧
     (((assess_sprint_interruption ntLow sprThirty itemsSwap none).action =
        "ACCEPT" ∨
       (assess_sprint_interruption ntLow sprThirty itemsSwap none).action =
        "DEFER" ∨
       (assess_sprint_interruption ntLow sprThirty itemsSwap none).action =
        "SPLIT") →
      (assess_sprint_interruption ntLow sprThirty itemsSwap
        none).target_to_remove = none)) :=
  ⟨by decide,
   target_iff_swap_or_critical ntLow sprThirty itemsSwap none (by decide)⟩

end ThreeEngine
